import Mathlib

/-!
Verification of the register polling and decoding coordinator of the
webasto_unite_modbus integration, shallowly embedded from
`custom_components/webasto_unite_modbus/coordinator.py`.

Registers are 16-bit words modelled as `Nat`; the scale multiplier is
modelled as a rational number; strings are modelled as lists of Unicode
code points.
-/

namespace WebastoUnite

/-- A decoded register value: Python `None`, a scaled number, or a string
(list of Unicode code points). -/
inductive DecodedValue where
  | none : DecodedValue
  | num : ℚ → DecodedValue
  | str : List ℕ → DecodedValue
deriving DecidableEq

/-- Register descriptor, from the `RegisterDef` dataclass in
`coordinator.py`. -/
structure RegisterDef where
  key : String
  address : ℕ
  input_type : String := "input"
  data_type : String := "uint16"
  count : ℕ := 1
  scale : ℚ := 1
deriving DecidableEq

/-- The complete register catalog `REGISTER_MAP` from `coordinator.py`. -/
def REGISTER_MAP : List RegisterDef := [
  { key := "serial_number", address := 100, data_type := "string", count := 25 },
  { key := "charge_point_id", address := 130, data_type := "string", count := 50 },
  { key := "brand", address := 190, data_type := "string", count := 10 },
  { key := "model", address := 210, data_type := "string", count := 5 },
  { key := "firmware_version", address := 230, data_type := "string", count := 50 },
  { key := "date", address := 290, data_type := "uint32" },
  { key := "time", address := 294, data_type := "uint32" },
  { key := "charge_point_power", address := 400, data_type := "uint32" },
  { key := "number_of_phases", address := 404 },
  { key := "charge_point_state", address := 1000 },
  { key := "charging_state", address := 1001 },
  { key := "equipment_state", address := 1002 },
  { key := "cable_state", address := 1004 },
  { key := "fault_code", address := 1006, data_type := "uint16" },
  { key := "current_l1", address := 1008, scale := 1/1000 },
  { key := "current_l2", address := 1010, scale := 1/1000 },
  { key := "current_l3", address := 1012, scale := 1/1000 },
  { key := "voltage_l1", address := 1014 },
  { key := "voltage_l2", address := 1016 },
  { key := "voltage_l3", address := 1018 },
  { key := "active_power_total", address := 1020, data_type := "uint32" },
  { key := "active_power_l1", address := 1024, data_type := "uint32" },
  { key := "active_power_l2", address := 1028, data_type := "uint32" },
  { key := "active_power_l3", address := 1032, data_type := "uint32" },
  { key := "meter_reading", address := 1036, data_type := "uint32", scale := 1/10 },
  { key := "session_max_current", address := 1100 },
  { key := "evse_min_current", address := 1102 },
  { key := "evse_max_current", address := 1104 },
  { key := "cable_max_current", address := 1106 },
  { key := "charged_energy", address := 1502, data_type := "uint32", scale := 1/1000 },
  { key := "session_start_time", address := 1504, data_type := "uint32" },
  { key := "session_duration", address := 1508, data_type := "uint32" },
  { key := "session_end_time", address := 1512, data_type := "uint32" },
  { key := "failsafe_current", address := 2000, input_type := "holding" },
  { key := "failsafe_timeout", address := 2002, input_type := "holding" },
  { key := "charging_current_limit", address := 5004, input_type := "holding" },
  { key := "alive_register", address := 6000, input_type := "holding" }
]

/-- Keep-alive interval in seconds (`KEEP_ALIVE_INTERVAL`). -/
def KEEP_ALIVE_INTERVAL : ℕ := 5

/-- Keep-alive register address (`KEEP_ALIVE_REGISTER`). -/
def KEEP_ALIVE_REGISTER : ℕ := 6000

/-- True for a UTF-8 continuation byte (0x80 to 0xBF). -/
def isCont (b : ℕ) : Bool := 0x80 ≤ b && b ≤ 0xBF

/-- Fuel-driven worker for `utf8DecodeIgnore`. Every step consumes at least
one byte, so fuel equal to the byte count is always enough. -/
def utf8DecodeIgnoreAux : ℕ → List ℕ → List ℕ
  | 0, _ => []
  | _ + 1, [] => []
  | fuel + 1, b :: rest =>
    if b ≤ 0x7F then
      b :: utf8DecodeIgnoreAux fuel rest
    else if 0xC2 ≤ b && b ≤ 0xDF then
      match rest with
      | [] => []
      | c1 :: rest2 =>
        if isCont c1 then
          ((b - 0xC0) * 64 + (c1 - 0x80)) :: utf8DecodeIgnoreAux fuel rest2
        else
          utf8DecodeIgnoreAux fuel rest
    else if 0xE0 ≤ b && b ≤ 0xEF then
      match rest with
      | [] => []
      | c1 :: rest2 =>
        if (if b == 0xE0 then 0xA0 ≤ c1 && c1 ≤ 0xBF
            else if b == 0xED then 0x80 ≤ c1 && c1 ≤ 0x9F
            else isCont c1) then
          match rest2 with
          | [] => []
          | c2 :: rest3 =>
            if isCont c2 then
              ((b - 0xE0) * 4096 + (c1 - 0x80) * 64 + (c2 - 0x80)) ::
                utf8DecodeIgnoreAux fuel rest3
            else
              utf8DecodeIgnoreAux fuel rest2
        else
          utf8DecodeIgnoreAux fuel rest
    else if 0xF0 ≤ b && b ≤ 0xF4 then
      match rest with
      | [] => []
      | c1 :: rest2 =>
        if (if b == 0xF0 then 0x90 ≤ c1 && c1 ≤ 0xBF
            else if b == 0xF4 then 0x80 ≤ c1 && c1 ≤ 0x8F
            else isCont c1) then
          match rest2 with
          | [] => []
          | c2 :: rest3 =>
            if isCont c2 then
              match rest3 with
              | [] => []
              | c3 :: rest4 =>
                if isCont c3 then
                  ((b - 0xF0) * 262144 + (c1 - 0x80) * 4096 +
                    (c2 - 0x80) * 64 + (c3 - 0x80)) ::
                    utf8DecodeIgnoreAux fuel rest4
                else
                  utf8DecodeIgnoreAux fuel rest3
            else
              utf8DecodeIgnoreAux fuel rest2
        else
          utf8DecodeIgnoreAux fuel rest
    else
      utf8DecodeIgnoreAux fuel rest

/-- Model of the Python call `bytes(chars).decode("utf-8", errors="ignore")`:
a UTF-8 decoder that skips invalid sequences (the maximal valid subpart of a
truncated sequence is dropped and decoding resumes at the offending byte),
rejecting surrogates, overlong forms and code points above U+10FFFF, as the
CPython strict UTF-8 decoder with the ignore error handler does. -/
def utf8DecodeIgnore (l : List ℕ) : List ℕ := utf8DecodeIgnoreAux l.length l

/-- True for the characters stripped by the Python call
`.strip("\x00 ")`: NUL and space. -/
def isStripChar (c : ℕ) : Bool := c == 0 || c == 32

/-- Model of the Python call `s.strip("\x00 ")`: remove NUL and space
characters from both ends of the string. -/
def pyStrip (l : List ℕ) : List ℕ :=
  ((l.reverse.dropWhile isStripChar).reverse).dropWhile isStripChar

/-- Trailing-only variant: remove NUL and space characters from the end of
the string only. Modelled from the spec sentence that STRING decoding trims
trailing NUL bytes and spaces; used to compare the spec wording with the
source behaviour. -/
def pyStripTrailing (l : List ℕ) : List ℕ :=
  (l.reverse.dropWhile isStripChar).reverse

/-- The byte expansion in the string branch of `_decode_value`: each word
contributes its high byte `(item >> 8) & 0xFF` then its low byte
`item & 0xFF`. -/
def wordsToBytes : List ℕ → List ℕ
  | [] => []
  | w :: rest => ((w >>> 8) &&& 0xFF) :: (w &&& 0xFF) :: wordsToBytes rest

/-- Embeds `_decode_value` from `coordinator.py`: decode raw register words into a
scaled value. -/
def decode_value (registers : List ℕ) (register : RegisterDef) : DecodedValue :=
  if register.data_type = "uint32" then
    if registers.length < 2 then
      DecodedValue.none
    else
      DecodedValue.num
        (((registers.headD 0 <<< 16) + registers.getD 1 0 : ℕ) * register.scale)
  else if register.data_type = "string" then
    DecodedValue.str (pyStrip (utf8DecodeIgnore (wordsToBytes registers)))
  else
    match registers with
    | [] => DecodedValue.none
    | r :: _ => DecodedValue.num ((r : ℕ) * register.scale)

/-- The `meter_reading` catalog entry as it appears in `REGISTER_MAP`. -/
def meter_reading_def : RegisterDef :=
  { key := "meter_reading", address := 1036, data_type := "uint32", scale := 1/10 }

/-- The `serial_number` catalog entry as it appears in `REGISTER_MAP`. -/
def serial_number_def : RegisterDef :=
  { key := "serial_number", address := 100, data_type := "string", count := 25 }

/-- The `UpdateFailed` exceptions raised by the coordinator, keyed by the
failure site; read and write failures carry the register address named in
the exception message. -/
inductive UpdateFailedError where
  | connectFailed : UpdateFailedError
  | readError : ℕ → UpdateFailedError
  | writeError : ℕ → UpdateFailedError
deriving DecidableEq

/-- Outcome of one transport register read: the register words, or a Modbus
error indication (`result.isError()` true). -/
inductive ReadResult where
  | ok : List ℕ → ReadResult
  | error : ReadResult
deriving DecidableEq

/-- The asyncio task handle held in `self._keep_alive_task`: an identity and
the `done()` flag. -/
structure TaskHandle where
  id : ℕ
  done : Bool
deriving DecidableEq

/-- The coordinator-visible state: the transport connection flag
(`client.connected`), whether `client.close()` has been called, the
currently published snapshot (`self.data`, None before the first successful
refresh), the keep-alive task handle, and a counter supplying fresh task
identities for `asyncio.create_task`. -/
structure CoordinatorState where
  connected : Bool
  closed : Bool
  data : Option (List (String × DecodedValue))
  keep_alive_task : Option TaskHandle
  next_task_id : ℕ
deriving DecidableEq

/-- The transport behaviour visible to the coordinator during one cycle:
the result of `client.connect()`, of `read_holding_registers` and
`read_input_registers` (by address and count), and whether
`write_register(address, value)` returns an error indication. -/
structure Transport where
  connectOk : Bool
  read_holding : ℕ → ℕ → ReadResult
  read_input : ℕ → ℕ → ReadResult
  write_result_is_error : ℕ → ℕ → Bool

/-- Embeds `async_start_keep_alive` from `coordinator.py`: spawn a keep-alive task
only when none exists or the existing one is done; a freshly created task is
running (not done). -/
def async_start_keep_alive (s : CoordinatorState) : CoordinatorState :=
  match s.keep_alive_task with
  | Option.none =>
      { s with keep_alive_task := some ⟨s.next_task_id, false⟩,
               next_task_id := s.next_task_id + 1 }
  | some t =>
      if t.done then
        { s with keep_alive_task := some ⟨s.next_task_id, false⟩,
                 next_task_id := s.next_task_id + 1 }
      else s

/-- Embeds `_read_register` from `coordinator.py`: two words are requested for
uint32 registers, the bank selects the holding or input read, and an error
indication raises `UpdateFailed` naming the register address. -/
def read_register (t : Transport) (r : RegisterDef) :
    Except UpdateFailedError (List ℕ) :=
  let count := if r.data_type = "uint32" then 2 else r.count
  let result := if r.input_type = "holding" then t.read_holding r.address count
                else t.read_input r.address count
  match result with
  | ReadResult.ok ws => Except.ok ws
  | ReadResult.error => Except.error (UpdateFailedError.readError r.address)

/-- The register loop of `_async_update_data`: read and decode each catalog
descriptor in order, aborting the whole cycle at the first read failure. -/
def read_registers (t : Transport) :
    List RegisterDef → Except UpdateFailedError (List (String × DecodedValue))
  | [] => Except.ok []
  | r :: rest =>
    match read_register t r with
    | Except.error e => Except.error e
    | Except.ok ws =>
      match read_registers t rest with
      | Except.error e => Except.error e
      | Except.ok tail => Except.ok ((r.key, decode_value ws r) :: tail)

/-- Embeds `_async_update_data` from `coordinator.py`: connect if needed (raising
`UpdateFailed` when `connect()` returns false, starting the keep-alive task
on a fresh connection), then read and decode the full catalog; the snapshot
starts with the `last_update` timestamp entry. `now` is the capture
timestamp. -/
def async_update_data (t : Transport) (now : List ℕ) (s : CoordinatorState) :
    CoordinatorState × Except UpdateFailedError (List (String × DecodedValue)) :=
  if s.connected then
    (s, (read_registers t REGISTER_MAP).map (("last_update", DecodedValue.str now) :: ·))
  else if t.connectOk then
    let s1 := async_start_keep_alive { s with connected := true }
    (s1, (read_registers t REGISTER_MAP).map (("last_update", DecodedValue.str now) :: ·))
  else
    (s, Except.error UpdateFailedError.connectFailed)

/-- One poll cycle: `_async_update_data` together with the publication
contract of the surrounding `DataUpdateCoordinator` framework — the returned
snapshot replaces `self.data` only when the cycle succeeds, and a raised
`UpdateFailed` leaves the published snapshot untouched. -/
def poll (t : Transport) (now : List ℕ) (s : CoordinatorState) :
    CoordinatorState × Option UpdateFailedError :=
  match async_update_data t now s with
  | (s1, Except.ok d) => ({ s1 with data := some d }, Option.none)
  | (s1, Except.error e) => (s1, some e)

/-- The outcome of `async_write_holding_register`: the resulting state, the
raised `UpdateFailed` if any, and whether the post-write refresh
(`async_request_refresh`) was requested. -/
structure WriteOutcome where
  state : CoordinatorState
  error : Option UpdateFailedError
  refresh_requested : Bool
deriving DecidableEq

/-- Embeds `async_write_holding_register` from `coordinator.py`: connect if needed,
issue the single-register write, raise `UpdateFailed` naming the address on
an error indication, and request an immediate refresh only after a
successful write. -/
def async_write_holding_register (t : Transport) (s : CoordinatorState)
    (address value : ℕ) : WriteOutcome :=
  if s.connected then
    if t.write_result_is_error address value then
      ⟨s, some (UpdateFailedError.writeError address), false⟩
    else
      ⟨s, Option.none, true⟩
  else if t.connectOk then
    let s1 := { s with connected := true }
    if t.write_result_is_error address value then
      ⟨s1, some (UpdateFailedError.writeError address), false⟩
    else
      ⟨s1, Option.none, true⟩
  else
    ⟨s, some UpdateFailedError.connectFailed, false⟩

/-- How `await self._keep_alive_task` ends inside `async_shutdown`: the task
completes, the await raises `asyncio.CancelledError`, or it raises some
other exception-like condition. -/
inductive AwaitOutcome where
  | completed : AwaitOutcome
  | cancelledError : AwaitOutcome
  | otherError : AwaitOutcome
deriving DecidableEq

/-- Embeds `client.close()`: the transport is closed and no longer connected. -/
def close_transport (s : CoordinatorState) : CoordinatorState :=
  { s with closed := true, connected := false }

/-- Embeds `async_shutdown` from `coordinator.py`: when a running keep-alive task
exists it is cancelled and awaited, with only `asyncio.CancelledError`
caught; `Option.none` means the await raised something else and the function
unwound before reaching `client.close()`. -/
def async_shutdown (s : CoordinatorState) (outcome : AwaitOutcome) :
    Option CoordinatorState :=
  match s.keep_alive_task with
  | some t =>
    if t.done then
      some (close_transport s)
    else
      match outcome with
      | AwaitOutcome.otherError => Option.none
      | _ => some (close_transport
          { s with keep_alive_task := some { t with done := true } })
  | Option.none => some (close_transport s)

/-- What one iteration of `_keep_alive_loop` runs into: a cancellation
signal, a disconnected client (write skipped), a successful write, a write
returning an error indication, or a write raising a non-cancellation
exception. -/
inductive KeepAliveEvent where
  | cancelled : KeepAliveEvent
  | notConnected : KeepAliveEvent
  | writeOk : KeepAliveEvent
  | writeErrorResult : KeepAliveEvent
  | writeRaised : KeepAliveEvent
deriving DecidableEq

/-- Effect of one iteration of `_keep_alive_loop`: whether the loop goes on
to the next iteration, whether the iteration logged an error, and whether
anything escaped the try-except of the loop body. -/
structure KeepAliveStep where
  continues : Bool
  logged : Bool
  propagates : Bool
deriving DecidableEq

/-- One iteration of the `while True` body of `_keep_alive_loop`:
`asyncio.CancelledError` breaks the loop; an error indication from the write
is logged by the warning branch; any other exception is caught by the
`except Exception` handler and logged; nothing propagates out of the body. -/
def keep_alive_iteration (e : KeepAliveEvent) : KeepAliveStep :=
  match e with
  | KeepAliveEvent.cancelled => ⟨false, false, false⟩
  | KeepAliveEvent.notConnected => ⟨true, false, false⟩
  | KeepAliveEvent.writeOk => ⟨true, false, false⟩
  | KeepAliveEvent.writeErrorResult => ⟨true, true, false⟩
  | KeepAliveEvent.writeRaised => ⟨true, true, false⟩

/-- The keep-alive loop run against a schedule of iteration events,
returning the iterations that actually execute: the loop keeps going until
an iteration does not continue. -/
def keep_alive_loop : List KeepAliveEvent → List KeepAliveEvent
  | [] => []
  | e :: rest =>
    if (keep_alive_iteration e).continues then e :: keep_alive_loop rest
    else [e]

/-- Which unit-id parameter names the transport client exposes on
`read_holding_registers` (the probed method). -/
structure ClientParams where
  device_id : Bool
  unit : Bool
  slave : Bool
deriving DecidableEq

/-- Embeds `_detect_modbus_unit_keyword` from `coordinator.py`: probe the client
signature for `device_id`, then `unit`, then `slave`; `Option.none` means
the unit id is passed positionally. -/
def detect_modbus_unit_keyword (p : ClientParams) : Option String :=
  if p.device_id then some "device_id"
  else if p.unit then some "unit"
  else if p.slave then some "slave"
  else Option.none

/-- The call configuration cached by `__init__`: the configured unit id and
the once-probed unit keyword (`self._modbus_unit_keyword`). -/
structure ModbusCallConfig where
  unit_id : ℕ
  modbus_unit_keyword : Option String
deriving DecidableEq

/-- The `__init__` steps that fix the call configuration: the unit keyword
is probed here, once, and cached. -/
def coordinator_init_call_config (p : ClientParams) (unit_id : ℕ) :
    ModbusCallConfig :=
  { unit_id := unit_id, modbus_unit_keyword := detect_modbus_unit_keyword p }

/-- Embeds `_get_modbus_call_kwargs` from `coordinator.py`: extend the call
keywords with the cached unit keyword, or return the unit id for positional
passing; the probe is not repeated here. -/
def get_modbus_call_kwargs (c : ModbusCallConfig) (base : List (String × ℕ)) :
    List (String × ℕ) × Option ℕ :=
  match c.modbus_unit_keyword with
  | some kw => (base ++ [(kw, c.unit_id)], Option.none)
  | Option.none => (base, some c.unit_id)

/-- A sequence of transport calls made after initialization, each preparing
its keywords through `_get_modbus_call_kwargs` on the cached
configuration. -/
def call_kwargs_trace (c : ModbusCallConfig) (bases : List (List (String × ℕ))) :
    List (List (String × ℕ) × Option ℕ) :=
  bases.map (get_modbus_call_kwargs c)

/-- A transport whose input-bank reads fail with an error indication while
everything else succeeds. -/
def failing_transport : Transport :=
  { connectOk := true,
    read_holding := fun _ _ => ReadResult.ok [0, 0],
    read_input := fun _ _ => ReadResult.error,
    write_result_is_error := fun _ _ => false }

/-- A transport where only writes to address 7 return an error
indication. -/
def write7_transport : Transport :=
  { connectOk := true,
    read_holding := fun _ _ => ReadResult.ok [0, 0],
    read_input := fun _ _ => ReadResult.ok [0, 0],
    write_result_is_error := fun a _ => a == 7 }

/-- A connected coordinator with a published snapshot and a running
keep-alive task. -/
def connected_state : CoordinatorState :=
  { connected := true, closed := false,
    data := some [("fault_code", DecodedValue.num 0)],
    keep_alive_task := some ⟨0, false⟩, next_task_id := 1 }

/-- A connected coordinator with a running keep-alive task and no snapshot
yet. -/
def running_keep_alive_state : CoordinatorState :=
  { connected := true, closed := false, data := Option.none,
    keep_alive_task := some ⟨0, false⟩, next_task_id := 1 }

lemma shiftLeft16_add_eq_or {hi lo : ℕ} (h : lo < 65536) :
    hi <<< 16 + lo = hi <<< 16 ||| lo := by
  rw [Nat.shiftLeft_eq, mul_comm]
  exact Nat.mul_add_lt_is_or h hi

/-- C1, counterexample: the catalog stores `meter_reading` with scale 0.1,
not 0.001, and decoding the raw words `[1, 500]` with that descriptor gives
6603.6, not 66.036. -/
theorem C1_meter_reading_claim_false :
    REGISTER_MAP.find? (fun r => r.key == "meter_reading") = some meter_reading_def
    ∧ meter_reading_def.scale ≠ (0.001 : ℚ)
    ∧ decode_value [1, 500] meter_reading_def ≠ DecodedValue.num (66.036 : ℚ) := by
  refine ⟨by simp [REGISTER_MAP, meter_reading_def], ?_, ?_⟩
  · simp [meter_reading_def]
    norm_num
  · simp [decode_value, meter_reading_def]
    norm_num

/-- C1, amended: the catalog `meter_reading` descriptor is address 1036,
bank INPUT, encoding UINT32, scale 0.1, and for that descriptor decoding the
raw words `[1, 500]` returns `(1 <<< 16 ||| 500) * 0.1 = 6603.6`. -/
theorem C1_meter_reading_decode :
    REGISTER_MAP.find? (fun r => r.key == "meter_reading") = some meter_reading_def
    ∧ meter_reading_def.address = 1036
    ∧ meter_reading_def.input_type = "input"
    ∧ meter_reading_def.data_type = "uint32"
    ∧ meter_reading_def.scale = (0.1 : ℚ)
    ∧ decode_value [1, 500] meter_reading_def
        = DecodedValue.num (((1 <<< 16 ||| 500 : ℕ) : ℚ) * (0.1 : ℚ))
    ∧ (((1 <<< 16 ||| 500 : ℕ) : ℚ) * (0.1 : ℚ) = (6603.6 : ℚ)) := by
  refine ⟨by simp [REGISTER_MAP, meter_reading_def], rfl, rfl, rfl, ?_, ?_, ?_⟩
  · simp [meter_reading_def]
    norm_num
  · simp [decode_value, meter_reading_def]
    norm_num
  · have h66036 : (1 <<< 16 ||| 500 : ℕ) = 66036 := by decide
    rw [h66036]
    norm_num

/-- C3: for every descriptor with encoding UINT32, decoding a word sequence
starting with words `hi`, `lo` (with `lo` a 16-bit word) yields
`(hi <<< 16 ||| lo) * scale`, and decoding a sequence of fewer than two
words yields null. -/
theorem C3_uint32_decode (register : RegisterDef)
    (hty : register.data_type = "uint32") :
    (∀ (words : List ℕ) (hi lo : ℕ) (rest : List ℕ),
      words = hi :: lo :: rest → lo < 65536 →
      decode_value words register
        = DecodedValue.num (((hi <<< 16 ||| lo : ℕ) : ℚ) * register.scale))
    ∧ (∀ words : List ℕ, words.length < 2 →
        decode_value words register = DecodedValue.none) := by
  constructor
  · rintro words hi lo rest rfl hlo
    simp [decode_value, hty, ← shiftLeft16_add_eq_or hlo]
  · intro words hlen
    simp [decode_value, hty, hlen]

/-- C3, witness: the UINT32 decode theorem applied to the catalog
`meter_reading` descriptor at the concrete word lists `[1, 500]` and `[7]`. -/
theorem C3_uint32_decode_witness :
    decode_value [1, 500] meter_reading_def
      = DecodedValue.num (((1 <<< 16 ||| 500 : ℕ) : ℚ) * meter_reading_def.scale)
    ∧ decode_value [7] meter_reading_def = DecodedValue.none :=
  ⟨(C3_uint32_decode meter_reading_def rfl).1 [1, 500] 1 500 [] rfl (by decide),
   (C3_uint32_decode meter_reading_def rfl).2 [7] (by decide)⟩

lemma head?_dropWhile_eq_some {p : ℕ → Bool} {l : List ℕ} {a : ℕ}
    (h : (l.dropWhile p).head? = some a) : p a = false := by
  have := List.head?_dropWhile_not p l
  rw [h] at this
  exact this

lemma getLast?_dropWhile_eq_some {p : ℕ → Bool} {l : List ℕ} {a : ℕ}
    (h : (l.dropWhile p).getLast? = some a) : l.getLast? = some a := by
  obtain ⟨t, ht⟩ := List.dropWhile_suffix p (l := l)
  have hne : l.dropWhile p ≠ [] := by
    intro hnil
    rw [hnil] at h
    simp at h
  rw [← ht, List.getLast?_append_of_ne_nil _ hne, h]

/-- C4, counterexample: the claim describes STRING decoding as trimming
trailing NUL bytes and spaces, but the source strips both ends; on the
catalog `serial_number` descriptor, the single word `0x0041` decodes to the
byte string NUL-then-A, and the source drops the leading NUL while a
trailing-only trim would keep it. -/
theorem C4_string_trailing_only_false :
    REGISTER_MAP.find? (fun r => r.key == "serial_number") = some serial_number_def
    ∧ pyStripTrailing (utf8DecodeIgnore (wordsToBytes [65])) = [0, 65]
    ∧ decode_value [65] serial_number_def
        ≠ DecodedValue.str (pyStripTrailing (utf8DecodeIgnore (wordsToBytes [65]))) := by
  refine ⟨by simp [REGISTER_MAP, serial_number_def], by decide, by decide⟩

/-- C4, amended: for every descriptor with encoding STRING and every word
sequence, decode never fails: it returns the string obtained by splitting
each word into its high and low bytes in order, decoding the byte sequence
as UTF-8 with invalid sequences ignored, and trimming NUL bytes and spaces
from both ends (leading as well as trailing); the descriptor scale is never
applied to the result. -/
theorem C4_string_decode (register : RegisterDef)
    (hty : register.data_type = "string") (words : List ℕ) :
    decode_value words register
      = DecodedValue.str (pyStrip (utf8DecodeIgnore (wordsToBytes words)))
    ∧ (∀ s : ℚ,
        decode_value words { register with scale := s }
          = decode_value words register) := by
  constructor
  · simp [decode_value, hty]
  · intro s
    simp [decode_value, hty]

/-- C4, witness: the STRING decode theorem applied to the catalog
`serial_number` descriptor at the concrete word list `[65]`, with an
arbitrary replacement scale 5. -/
theorem C4_string_decode_witness :
    decode_value [65] serial_number_def
      = DecodedValue.str (pyStrip (utf8DecodeIgnore (wordsToBytes [65])))
    ∧ decode_value [65] { serial_number_def with scale := 5 }
      = decode_value [65] serial_number_def :=
  ⟨(C4_string_decode serial_number_def rfl [65]).1,
   (C4_string_decode serial_number_def rfl [65]).2 5⟩

/-- C10: for every descriptor with encoding STRING, the decoded string has
neither a leading nor a trailing NUL or space: padding is stripped from both
ends, so an input whose decoded content begins with NUL or space padding
loses that prefix. -/
theorem C10_string_strip_both_ends (register : RegisterDef)
    (hty : register.data_type = "string") (words : List ℕ) :
    ∃ s : List ℕ, decode_value words register = DecodedValue.str s
      ∧ (∀ c : ℕ, s.head? = some c → c ≠ 0 ∧ c ≠ 32)
      ∧ (∀ c : ℕ, s.getLast? = some c → c ≠ 0 ∧ c ≠ 32) := by
  refine ⟨pyStrip (utf8DecodeIgnore (wordsToBytes words)), by simp [decode_value, hty], ?_, ?_⟩
  · intro c hc
    have hpc : isStripChar c = false := head?_dropWhile_eq_some hc
    simp [isStripChar] at hpc
    exact hpc
  · intro c hc
    have h2 := getLast?_dropWhile_eq_some hc
    rw [List.getLast?_reverse] at h2
    have hpc : isStripChar c = false := head?_dropWhile_eq_some h2
    simp [isStripChar] at hpc
    exact hpc

/-- C10, witness: the both-ends stripping theorem applied to the catalog
`serial_number` descriptor at the word list `[32, 16706]`, whose decoded
byte content is space, NUL, then the letters AB. -/
theorem C10_string_strip_both_ends_witness :
    ∃ s : List ℕ, decode_value [32, 16706] serial_number_def = DecodedValue.str s
      ∧ (∀ c : ℕ, s.head? = some c → c ≠ 0 ∧ c ≠ 32)
      ∧ (∀ c : ℕ, s.getLast? = some c → c ≠ 0 ∧ c ≠ 32) :=
  C10_string_strip_both_ends serial_number_def rfl [32, 16706]

lemma read_register_error_shape {t : Transport} {r : RegisterDef}
    {e : UpdateFailedError} (h : read_register t r = Except.error e) :
    e = UpdateFailedError.readError r.address := by
  simp only [read_register] at h
  split at h
  · simp at h
  · simpa using h.symm

lemma read_registers_error_of_mem {t : Transport} :
    ∀ regs : List RegisterDef,
      (∃ r ∈ regs, ∃ e, read_register t r = Except.error e) →
      ∃ a, read_registers t regs = Except.error (UpdateFailedError.readError a)
        ∧ ∃ r ∈ regs, r.address = a
            ∧ read_register t r = Except.error (UpdateFailedError.readError a) := by
  intro regs
  induction regs with
  | nil => rintro ⟨r, hr, -⟩; simp at hr
  | cons r rest ih =>
    rintro ⟨r', hr', e', he'⟩
    cases hread : read_register t r with
    | error e =>
      have he := read_register_error_shape hread
      subst he
      exact ⟨r.address, by simp [read_registers, hread],
        r, List.mem_cons_self r rest, rfl, hread⟩
    | ok ws =>
      have hrest : r' ∈ rest := by
        rcases List.mem_cons.mp hr' with h | h
        · subst h; rw [hread] at he'; simp at he'
        · exact h
      obtain ⟨a, hloop, rr, hrr, hra, hre⟩ := ih ⟨r', hrest, e', he'⟩
      exact ⟨a, by simp [read_registers, hread, hloop],
        rr, List.mem_cons_of_mem r hrr, hra, hre⟩

/-- C2: while connected, a poll cycle in which the read of some catalog
register returns an error indication raises `UpdateFailed` carrying the
address of a failing register, no new snapshot is published, and the
previously published snapshot is unchanged. -/
theorem C2_read_failure_aborts_cycle (t : Transport) (now : List ℕ)
    (s : CoordinatorState) (hconn : s.connected = true ∨ t.connectOk = true)
    (hfail : ∃ r ∈ REGISTER_MAP, ∃ e, read_register t r = Except.error e) :
    ∃ a : ℕ,
      (∃ r ∈ REGISTER_MAP, r.address = a
        ∧ read_register t r = Except.error (UpdateFailedError.readError a))
      ∧ (poll t now s).2 = some (UpdateFailedError.readError a)
      ∧ ((poll t now s).1).data = s.data := by
  obtain ⟨a, hloop, hmem⟩ := read_registers_error_of_mem REGISTER_MAP hfail
  have hdata : ∀ x : CoordinatorState, (async_start_keep_alive x).data = x.data := by
    intro x
    cases hk : x.keep_alive_task with
    | none => simp [async_start_keep_alive, hk]
    | some u => by_cases hd : u.done <;> simp [async_start_keep_alive, hk, hd]
  by_cases hc : s.connected
  · refine ⟨a, hmem, ?_, ?_⟩ <;>
      simp [poll, async_update_data, hc, hloop, Except.map]
  · have hok : t.connectOk = true := by
      rcases hconn with h | h
      · exact absurd h hc
      · exact h
    refine ⟨a, hmem, ?_, ?_⟩ <;>
      simp [poll, async_update_data, hc, hok, hloop, Except.map, hdata]

/-- C2, witness: the abort theorem applied to a transport whose input-bank
reads fail, at a connected state holding a snapshot; the `serial_number`
read at address 100 is a concrete failing read. -/
theorem C2_read_failure_aborts_cycle_witness :
    connected_state.connected = true
    ∧ (∃ r ∈ REGISTER_MAP, ∃ e,
        read_register failing_transport r = Except.error e)
    ∧ ∃ a : ℕ,
        (∃ r ∈ REGISTER_MAP, r.address = a
          ∧ read_register failing_transport r
              = Except.error (UpdateFailedError.readError a))
        ∧ (poll failing_transport [] connected_state).2
            = some (UpdateFailedError.readError a)
        ∧ ((poll failing_transport [] connected_state).1).data
            = connected_state.data :=
  ⟨rfl,
   ⟨serial_number_def, by simp [REGISTER_MAP, serial_number_def],
    UpdateFailedError.readError 100, rfl⟩,
   C2_read_failure_aborts_cycle failing_transport [] connected_state (Or.inl rfl)
     ⟨serial_number_def, by simp [REGISTER_MAP, serial_number_def],
      UpdateFailedError.readError 100, rfl⟩⟩

/-- C5: while connected, a holding-register write whose transport write
returns an error indication raises `UpdateFailed` naming that address and
does not request the post-write refresh; a successful write raises nothing
and requests an immediate refresh. -/
theorem C5_write_error_no_refresh (t : Transport) (s : CoordinatorState)
    (address value : ℕ) (hconn : s.connected = true ∨ t.connectOk = true) :
    (t.write_result_is_error address value = true →
      (async_write_holding_register t s address value).error
          = some (UpdateFailedError.writeError address)
      ∧ (async_write_holding_register t s address value).refresh_requested
          = false)
    ∧ (t.write_result_is_error address value = false →
      (async_write_holding_register t s address value).error = Option.none
      ∧ (async_write_holding_register t s address value).refresh_requested
          = true) := by
  by_cases hc : s.connected
  · constructor <;> intro hw <;>
      simp [async_write_holding_register, hc, hw]
  · have hok : t.connectOk = true := by
      rcases hconn with h | h
      · exact absurd h hc
      · exact h
    constructor <;> intro hw <;>
      simp [async_write_holding_register, hc, hok, hw]

/-- C5, witness: the write theorem applied to a transport that fails writes
to address 7 only, at the charging-current-limit address 5004 for the
successful case. -/
theorem C5_write_error_no_refresh_witness :
    connected_state.connected = true
    ∧ write7_transport.write_result_is_error 7 1 = true
    ∧ (async_write_holding_register write7_transport connected_state 7 1).error
        = some (UpdateFailedError.writeError 7)
    ∧ (async_write_holding_register write7_transport connected_state 7 1).refresh_requested
        = false
    ∧ write7_transport.write_result_is_error 5004 16 = false
    ∧ (async_write_holding_register write7_transport connected_state 5004 16).error
        = Option.none
    ∧ (async_write_holding_register write7_transport connected_state 5004 16).refresh_requested
        = true :=
  ⟨rfl, rfl,
   ((C5_write_error_no_refresh write7_transport connected_state 7 1
       (Or.inl rfl)).1 rfl).1,
   ((C5_write_error_no_refresh write7_transport connected_state 7 1
       (Or.inl rfl)).1 rfl).2,
   rfl,
   ((C5_write_error_no_refresh write7_transport connected_state 5004 16
       (Or.inl rfl)).2 rfl).1,
   ((C5_write_error_no_refresh write7_transport connected_state 5004 16
       (Or.inl rfl)).2 rfl).2⟩

/-- C6, counterexample: with a running keep-alive task, when the awaited
cancellation raises an exception-like condition that is not a cancellation
signal, `async_shutdown` unwinds before `client.close()` and the transport
is never closed. -/
theorem C6_close_skipped_on_other_error :
    async_shutdown running_keep_alive_state AwaitOutcome.otherError
      = Option.none := rfl

/-- C6, amended: shutdown closes the transport when awaiting the cancelled
keep-alive task completes or raises a cancellation signal; only the
cancellation signal is caught, so any other exception-like condition
propagates and skips the close. -/
theorem C6_shutdown_closes_transport (s : CoordinatorState)
    (outcome : AwaitOutcome) (h : outcome ≠ AwaitOutcome.otherError) :
    ∃ s', async_shutdown s outcome = some s' ∧ s'.closed = true := by
  cases hk : s.keep_alive_task with
  | none => exact ⟨close_transport s, by simp [async_shutdown, hk], rfl⟩
  | some t =>
    by_cases hd : t.done
    · exact ⟨close_transport s, by simp [async_shutdown, hk, hd], rfl⟩
    · cases outcome with
      | completed =>
        exact ⟨close_transport
          { s with keep_alive_task := some { t with done := true } },
          by simp [async_shutdown, hk, hd], rfl⟩
      | cancelledError =>
        exact ⟨close_transport
          { s with keep_alive_task := some { t with done := true } },
          by simp [async_shutdown, hk, hd], rfl⟩
      | otherError => exact absurd rfl h

/-- C6, witness: the amended shutdown theorem applied to a state with a
running keep-alive task whose await raises the cancellation signal. -/
theorem C6_shutdown_closes_transport_witness :
    AwaitOutcome.cancelledError ≠ AwaitOutcome.otherError
    ∧ ∃ s', async_shutdown running_keep_alive_state AwaitOutcome.cancelledError
          = some s' ∧ s'.closed = true :=
  ⟨by decide,
   C6_shutdown_closes_transport running_keep_alive_state
     AwaitOutcome.cancelledError (by decide)⟩

/-- C7: no iteration of the keep-alive loop lets anything escape the loop
body; an iteration stops the loop exactly when it is a cancellation; a
write error indication or a raised non-cancellation exception is logged and
the loop still runs the following iterations; and a schedule containing no
cancellation is processed in full. -/
theorem C7_keep_alive_errors_do_not_stop_loop :
    (∀ e : KeepAliveEvent, (keep_alive_iteration e).propagates = false)
    ∧ (∀ e : KeepAliveEvent,
        ((keep_alive_iteration e).continues = false ↔ e = KeepAliveEvent.cancelled))
    ∧ (∀ (e : KeepAliveEvent) (rest : List KeepAliveEvent),
        e = KeepAliveEvent.writeErrorResult ∨ e = KeepAliveEvent.writeRaised →
        (keep_alive_iteration e).logged = true
        ∧ keep_alive_loop (e :: rest) = e :: keep_alive_loop rest)
    ∧ (∀ events : List KeepAliveEvent,
        KeepAliveEvent.cancelled ∉ events → keep_alive_loop events = events) := by
  refine ⟨?_, ?_, ?_, ?_⟩
  · intro e; cases e <;> rfl
  · intro e; cases e <;> simp [keep_alive_iteration]
  · rintro e rest (rfl | rfl) <;>
      exact ⟨rfl, by simp [keep_alive_loop, keep_alive_iteration]⟩
  · intro events hnc
    induction events with
    | nil => rfl
    | cons e rest ih =>
      have he : e ≠ KeepAliveEvent.cancelled := fun h => hnc (h ▸ List.mem_cons_self e rest)
      have hrest := ih (fun h => hnc (List.mem_cons_of_mem e h))
      cases e <;> simp_all [keep_alive_loop, keep_alive_iteration]

/-- C7, witness: a failed write iteration is logged and the loop goes on to
attempt the following successful write. -/
theorem C7_keep_alive_errors_do_not_stop_loop_witness :
    (keep_alive_iteration KeepAliveEvent.writeErrorResult).logged = true
    ∧ keep_alive_loop [KeepAliveEvent.writeErrorResult, KeepAliveEvent.writeOk]
        = KeepAliveEvent.writeErrorResult :: keep_alive_loop [KeepAliveEvent.writeOk]
    ∧ keep_alive_loop [KeepAliveEvent.writeErrorResult, KeepAliveEvent.writeOk]
        = [KeepAliveEvent.writeErrorResult, KeepAliveEvent.writeOk] :=
  ⟨(C7_keep_alive_errors_do_not_stop_loop.2.2.1 KeepAliveEvent.writeErrorResult
      [KeepAliveEvent.writeOk] (Or.inl rfl)).1,
   (C7_keep_alive_errors_do_not_stop_loop.2.2.1 KeepAliveEvent.writeErrorResult
      [KeepAliveEvent.writeOk] (Or.inl rfl)).2,
   C7_keep_alive_errors_do_not_stop_loop.2.2.2
     [KeepAliveEvent.writeErrorResult, KeepAliveEvent.writeOk] (by decide)⟩

/-- C8: the unit-id keyword is fixed by the probe run once at
initialization — every later call builds its keywords from the cached
result only — and a transport exposing only `slave` makes every call pass
the unit id under `slave`, while one exposing `device_id` makes every call
pass it under `device_id`. -/
theorem C8_probe_once_and_dispatch (p : ClientParams) (uid : ℕ) :
    (∀ bases : List (List (String × ℕ)),
      call_kwargs_trace (coordinator_init_call_config p uid) bases
        = bases.map (fun base =>
            match detect_modbus_unit_keyword p with
            | some kw => (base ++ [(kw, uid)], Option.none)
            | Option.none => (base, some uid)))
    ∧ (p.device_id = true →
        ∀ base, get_modbus_call_kwargs (coordinator_init_call_config p uid) base
          = (base ++ [("device_id", uid)], Option.none))
    ∧ (p.device_id = false → p.unit = false → p.slave = true →
        ∀ base, get_modbus_call_kwargs (coordinator_init_call_config p uid) base
          = (base ++ [("slave", uid)], Option.none)) := by
  refine ⟨fun bases => rfl, ?_, ?_⟩
  · intro h base
    simp [get_modbus_call_kwargs, coordinator_init_call_config,
      detect_modbus_unit_keyword, h]
  · intro h1 h2 h3 base
    simp [get_modbus_call_kwargs, coordinator_init_call_config,
      detect_modbus_unit_keyword, h1, h2, h3]

/-- C8, witness: the probe theorem applied to a slave-only transport and to
a device-id transport, at the default unit id 255. -/
theorem C8_probe_once_and_dispatch_witness :
    get_modbus_call_kwargs
        (coordinator_init_call_config ⟨false, false, true⟩ 255) [("address", 1000)]
      = ([("address", 1000), ("slave", 255)], Option.none)
    ∧ get_modbus_call_kwargs
        (coordinator_init_call_config ⟨true, false, false⟩ 255) [("address", 1000)]
      = ([("address", 1000), ("device_id", 255)], Option.none) :=
  ⟨(C8_probe_once_and_dispatch ⟨false, false, true⟩ 255).2.2 rfl rfl rfl
     [("address", 1000)],
   (C8_probe_once_and_dispatch ⟨true, false, false⟩ 255).2.1 rfl
     [("address", 1000)]⟩

/-- C9: starting the keep-alive while a running (not done) task exists is a
no-op, and starting twice leaves exactly the state of starting once. -/
theorem C9_start_keep_alive_idempotent (s : CoordinatorState) :
    (∀ t : TaskHandle, s.keep_alive_task = some t → t.done = false →
      async_start_keep_alive s = s)
    ∧ async_start_keep_alive (async_start_keep_alive s)
        = async_start_keep_alive s := by
  constructor
  · intro t ht hd
    simp [async_start_keep_alive, ht, hd]
  · cases hk : s.keep_alive_task with
    | none => simp [async_start_keep_alive, hk]
    | some t =>
      by_cases hd : t.done
      · simp [async_start_keep_alive, hk, hd]
      · simp [async_start_keep_alive, hk, hd]

/-- C9, witness: the idempotence theorem applied to the connected state with
a running keep-alive task. -/
theorem C9_start_keep_alive_idempotent_witness :
    running_keep_alive_state.keep_alive_task = some ⟨0, false⟩
    ∧ (⟨0, false⟩ : TaskHandle).done = false
    ∧ async_start_keep_alive running_keep_alive_state = running_keep_alive_state :=
  ⟨rfl, rfl,
   (C9_start_keep_alive_idempotent running_keep_alive_state).1 ⟨0, false⟩ rfl rfl⟩

end WebastoUnite
